import Mathlib

/-!
Shallow embedding of `datasist/visualizations.py` (module `visualizations`).

A pandas DataFrame is modelled as an ordered list of named columns; each
column carries a dtype flag (numeric or not) and its cell values (as
strings).  Plotting side effects are modelled as an event trace; a raised
Python exception is modelled as an `Option PyError` in the outcome.
Statement order of the Python functions is preserved, so which guard fires
first is faithfully captured.
-/

namespace Datasist

/-- A column of a pandas DataFrame: its name, whether its dtype is numeric,
and its cell values (rendered as strings; only equality of cells matters
for the logic under study). -/
structure Column where
  name : String
  numericDtype : Bool
  values : List String
deriving Repr, DecidableEq

/-- A pandas DataFrame: an ordered list of columns with (intended) unique
names. -/
structure DataFrame where
  cols : List Column
deriving Repr, DecidableEq

/-- The ordered list of column names (`data.columns`). -/
def DataFrame.columns (d : DataFrame) : List String :=
  d.cols.map Column.name

/-- Column lookup by name (`data[name]` on a DataFrame), `none` when the
column is absent (pandas raises `KeyError` there). -/
def DataFrame.getCol? (d : DataFrame) (c : String) : Option (List String) :=
  (d.cols.find? (fun col => col.name == c)).map Column.values

/-- Number of rows (`data.shape[0]`), read off the first column. -/
def DataFrame.nRows (d : DataFrame) : Nat :=
  match d.cols with
  | [] => 0
  | c :: _ => c.values.length

/-- Column assignment `data[name] = values`: replaces the column in place
when the name exists, otherwise appends a new column at the end. -/
def DataFrame.setCol (d : DataFrame) (c : Column) : DataFrame :=
  if d.cols.any (fun col => col.name == c.name) then
    ⟨d.cols.map (fun col => if col.name == c.name then c else col)⟩
  else
    ⟨d.cols ++ [c]⟩

/-- `data.drop([name], axis=1, inplace=True)`: removes every column with
the given name. -/
def DataFrame.dropCol (d : DataFrame) (c : String) : DataFrame :=
  ⟨d.cols.filter (fun col => !(col.name == c))⟩

/-- `len(series.unique())`: the number of distinct cell values. -/
def nunique (vs : List String) : Nat :=
  vs.dedup.length

/-- Distinct-value count of a named column, `0` when absent (used only in
statements whose hypotheses guarantee presence). -/
def DataFrame.featNunique (d : DataFrame) (c : String) : Nat :=
  match d.getCol? c with
  | none => 0
  | some vs => nunique vs

/-- The Python exceptions the module can raise, with their messages. -/
inductive PyError where
  | valueError (msg : String)
  | attributeError (msg : String)
  | keyError (key : String)
  | typeError (msg : String)
deriving Repr, DecidableEq

/-- Observable side effects of one call: rendering, warnings printed for
skipped features, value-count displays, figure files written. -/
inductive Event where
  | warnTooMany (feature : String)
  | render (feature : String)
  | renderScatter (feature : String) (target : String)
  | renderSub (feature : String) (cat : String)
  | displayCounts (feature : String)
  | saveFig (fname : String)
deriving Repr, DecidableEq

/-- The outcome of one call: the emitted event trace, and the exception it
raised (`none` = normal return). -/
structure Outcome where
  events : List Event
  error : Option PyError
deriving Repr, DecidableEq

/-- Message of the shared missing-data guard. -/
def dataNoneMsg : String := "data: Expecting a DataFrame or Series, got None"

/-- Message raised by subscripting `None` (`None[target]`):
a `TypeError`, not the module's own `ValueError`. -/
def noneSubscriptMsg : String := "NoneType object is not subscriptable"

/-- `data[target]` where `data` is still an optional value: `TypeError`
when `data` is `None`, `KeyError` when the column is absent. -/
def subscriptCol (data : Option DataFrame) (c : String) :
    Except PyError (List String) :=
  match data with
  | none => .error (.typeError noneSubscriptMsg)
  | some d =>
    match d.getCol? c with
    | none => .error (.keyError c)
    | some vs => .ok vs

/-- Modelled from the spec (missing source module `structdata`, section
4.1 feature-type inference): the ordered set of column names classified as
categorical.  The dtype flag on each column stands for the outcome of the
fixed classification heuristic (non-numeric dtype, or numeric judged
low-cardinality); the two sequences are disjoint and cover all columns. -/
def get_cat_feats (d : DataFrame) : List String :=
  (d.cols.filter (fun c => !c.numericDtype)).map Column.name

/-- Modelled from the spec (missing source module `structdata`, section
4.1 feature-type inference): the ordered set of column names classified as
numerical, the complement of `get_cat_feats`. -/
def get_num_feats (d : DataFrame) : List String :=
  (d.cols.filter (fun c => c.numericDtype)).map Column.name

/-- The features a trace actually rendered as full charts. -/
def renderedFeatures (evs : List Event) : List String :=
  evs.filterMap (fun e =>
    match e with
    | .render f => some f
    | _ => none)

/-- The features a trace skipped with a too-many-values warning. -/
def warnedFeatures (evs : List Event) : List String :=
  evs.filterMap (fun e =>
    match e with
    | .warnTooMany f => some f
    | _ => none)

/-- Per-feature loop of `countplot` (lines 46-60): a feature with more
than 30 distinct values is skipped with a printed warning; otherwise one
count plot is rendered (and optionally saved).  Subscripting a feature
absent from the DataFrame raises `KeyError`. -/
def countplotLoop (d : DataFrame) (save_fig : Bool) :
    List String → Outcome
  | [] => ⟨[], none⟩
  | f :: rest =>
    match d.getCol? f with
    | none => ⟨[], some (.keyError f)⟩
    | some vs =>
      if nunique vs > 30 then
        let o := countplotLoop d save_fig rest
        ⟨.warnTooMany f :: o.events, o.error⟩
      else
        let o := countplotLoop d save_fig rest
        ⟨(.render f ::
            (if save_fig then [.saveFig ("Countplot_" ++ f)] else []))
          ++ o.events, o.error⟩

/-- `countplot` (lines 16-60).  Note: `separate_by` is passed straight to
the rendering library as the hue; the function performs no check that it
names a column of the dataset. -/
def countplot (data : Option DataFrame) (cat_features : Option (List String))
    (separate_by : Option String) (save_fig : Bool) : Outcome :=
  match data with
  | none => ⟨[], some (.valueError dataNoneMsg)⟩
  | some d =>
    let feats := cat_features.getD (get_cat_feats d)
    let _hue := separate_by
    countplotLoop d save_fig feats

/-- Per-feature loop of `boxplot` (lines 126-154): both the
`large_data` (boxen) branch and the normal branch render one chart per
feature against the target; the choice changes only the plot style, and
the optional save uses the same file name in both branches. -/
def boxplotLoop (target : String) (save_fig : Bool) :
    List String → List Event
  | [] => []
  | f :: rest =>
    (.render f ::
      (if save_fig then [.saveFig ("fig_" ++ f ++ "_vs_" ++ target)] else []))
      ++ boxplotLoop target save_fig rest

/-- `boxplot` (lines 83-154), with the source's statement order: the
`target is None` guard (line 114) runs first, then `data[target]` is
subscripted for the cardinality guard (line 117), and only after that the
`data is None` guard (line 120) is tested. -/
def boxplot (data : Option DataFrame) (num_features : Option (List String))
    (target : Option String) (large_data : Bool) (save_fig : Bool) : Outcome :=
  match target with
  | none => ⟨[], some (.valueError "Target value cannot be None")⟩
  | some t =>
    match subscriptCol data t with
    | .error e => ⟨[], some e⟩
    | .ok tvals =>
      if nunique tvals > 10 then
        ⟨[], some (.attributeError "Target categories must be less than 10")⟩
      else
        match data with
        | none => ⟨[], some (.valueError dataNoneMsg)⟩
        | some d =>
          let feats := num_features.getD (get_num_feats d)
          let _style := large_data
          ⟨boxplotLoop t save_fig feats, none⟩

/-- `violinplot` (lines 159-212): identical guard structure to `boxplot`
(target-none guard, then the cardinality guard subscripting `data`, then
the dead missing-data guard), then one violin chart per feature. -/
def violinplot (data : Option DataFrame) (num_features : Option (List String))
    (target : Option String) (save_fig : Bool) : Outcome :=
  match target with
  | none => ⟨[], some (.valueError "Target value cannot be None")⟩
  | some t =>
    match subscriptCol data t with
    | .error e => ⟨[], some e⟩
    | .ok tvals =>
      if nunique tvals > 10 then
        ⟨[], some (.attributeError "Target categories must be less than 10")⟩
      else
        match data with
        | none => ⟨[], some (.valueError dataNoneMsg)⟩
        | some d =>
          let feats := num_features.getD (get_num_feats d)
          ⟨boxplotLoop t save_fig feats, none⟩

/-- Per-feature loop of `histogram` (lines 247-265): one distribution
chart per feature, no cardinality check of any kind; `data[feature]` is
subscripted for its values, so an absent feature raises `KeyError`. -/
def histogramLoop (d : DataFrame) (save_fig : Bool) :
    List String → Outcome
  | [] => ⟨[], none⟩
  | f :: rest =>
    match d.getCol? f with
    | none => ⟨[], some (.keyError f)⟩
    | some _ =>
      let o := histogramLoop d save_fig rest
      ⟨(.render f ::
          (if save_fig then [.saveFig ("fig_hist_" ++ f)] else []))
        ++ o.events, o.error⟩

/-- `histogram` (lines 217-265): missing-data guard, feature-list
defaulting, then the per-feature loop. -/
def histogram (data : Option DataFrame) (num_features : Option (List String))
    (save_fig : Bool) : Outcome :=
  match data with
  | none => ⟨[], some (.valueError dataNoneMsg)⟩
  | some d =>
    let feats := num_features.getD (get_num_feats d)
    histogramLoop d save_fig feats

/-- Rendering of one `catbox` feature (lines 322-335): one subplot per
target category; when `save_fig` is set the figure file is written once
per category iteration. -/
def catboxRender (f : String) (save_fig : Bool) (cats : List String) :
    List Event :=
  cats.flatMap (fun cat =>
    .renderSub f cat ::
      (if save_fig then [.saveFig ("fig_catbox_" ++ f)] else []))

/-- Result of a `catbox` call: the caller's DataFrame as left at exit
(the dummy-count column may or may not have been dropped), the caller's
categorical-feature list as left at exit (the target is removed in
place), and the event/error outcome. -/
structure CatboxResult where
  dataAfter : Option DataFrame
  catFeatsAfter : List String
  out : Outcome
deriving Repr, DecidableEq

/-- Per-feature loop of `catbox` (lines 308-335) run on the DataFrame
that already holds the `dummy_count` column.  A feature with more than 10
distinct values is skipped with a printed warning; otherwise the grouped
counts are taken, the target categories listed, and — only then — a
`ValueError` is raised when there are more than 6 of them (line 318),
aborting the loop before the trailing drop of `dummy_count` runs. -/
def catboxLoop (dd : DataFrame) (target : String) (save_fig : Bool) :
    List String → Outcome
  | [] => ⟨[], none⟩
  | f :: rest =>
    match dd.getCol? f with
    | none => ⟨[], some (.keyError f)⟩
    | some vs =>
      if nunique vs > 10 then
        let o := catboxLoop dd target save_fig rest
        ⟨.warnTooMany f :: o.events, o.error⟩
      else
        match dd.getCol? target with
        | none => ⟨[], some (.keyError target)⟩
        | some tvals =>
          let cats := tvals.dedup
          if cats.length > 6 then
            ⟨[], some (.valueError ("Target column " ++ target ++
              " must contain less than six unique classes"))⟩
          else
            let o := catboxLoop dd target save_fig rest
            ⟨catboxRender f save_fig cats ++ o.events, o.error⟩

/-- `catbox` (lines 269-339).  Statement order of the source: missing-data
guard; feature-list defaulting; in-place removal of the target from the
caller's list (`cat_features.remove(target)` under a bare
`try/except: pass`, a first-occurrence removal); the outer cardinality
guard `len(data[target].unique()) > 8` (whose message says "less than
seven"); assignment of the transient `dummy_count` column; the feature
loop; and, only on the normal path, the trailing
`data.drop(['dummy_count'])` — the drop is not in a `finally`, so an
exception inside the loop leaves the dummy column in the caller's data. -/
def catbox (data : Option DataFrame) (cat_features : Option (List String))
    (target : Option String) (save_fig : Bool) : CatboxResult :=
  match data with
  | none =>
    ⟨none, cat_features.getD [], ⟨[], some (.valueError dataNoneMsg)⟩⟩
  | some d =>
    let feats0 := cat_features.getD (get_cat_feats d)
    match target with
    | none =>
      ⟨some d, feats0, ⟨[], some (.keyError "None")⟩⟩
    | some t =>
      let feats := feats0.erase t
      match d.getCol? t with
      | none => ⟨some d, feats, ⟨[], some (.keyError t)⟩⟩
      | some tvals =>
        if nunique tvals > 8 then
          ⟨some d, feats,
            ⟨[], some (.attributeError
              "Target categories must be less than seven")⟩⟩
        else
          let dd := d.setCol ⟨"dummy_count", true,
            List.replicate d.nRows "1.0"⟩
          let o := catboxLoop dd t save_fig feats
          match o.error with
          | some e => ⟨some dd, feats, ⟨o.events, some e⟩⟩
          | none => ⟨some (dd.dropCol "dummy_count"), feats, o⟩

/-- Per-feature display loop of `class_count` (lines 367-369): one
value-counts table per feature; `data[feature]` is subscripted, so an
absent feature raises `KeyError`. -/
def classCountLoop (d : DataFrame) : List String → Outcome
  | [] => ⟨[], none⟩
  | f :: rest =>
    match d.getCol? f with
    | none => ⟨[], some (.keyError f)⟩
    | some _ =>
      let o := classCountLoop d rest
      ⟨.displayCounts f :: o.events, o.error⟩

/-- `class_count` (lines 342-372): missing-data guard, feature-list
defaulting, value-count display per feature, then — when `plot` is set —
delegation to `countplot` with the resolved feature list. -/
def class_count (data : Option DataFrame) (cat_features : Option (List String))
    (plot : Bool) (save_fig : Bool) : Outcome :=
  match data with
  | none => ⟨[], some (.valueError dataNoneMsg)⟩
  | some d =>
    let feats := cat_features.getD (get_cat_feats d)
    let o := classCountLoop d feats
    match o.error with
    | some e => ⟨o.events, some e⟩
    | none =>
      if plot then
        let oc := countplot (some d) (some feats) none save_fig
        ⟨o.events ++ oc.events, oc.error⟩
      else o

/-- Tail of `scatterplot` (lines 407-419): the target-none guard,
feature-list defaulting, then one scatter chart of each feature against
the target. -/
def scatterplotTail (d : DataFrame) (num_features : Option (List String))
    (target : Option String) (save_fig : Bool) : Outcome :=
  match target with
  | none => ⟨[], some (.valueError "Target value cannot be None")⟩
  | some t =>
    let feats := num_features.getD (get_num_feats d)
    ⟨feats.flatMap (fun f =>
      .renderScatter f t ::
        (if save_fig then [.saveFig ("fig_scatterplot_" ++ f)] else [])),
      none⟩

/-- `scatterplot` (lines 376-419).  Guards in source order: missing-data
guard; the separator-existence guard (`separate_by not in data.columns`,
lines 401-404); then `scatterplotTail`.  There is no check that `target`
is a column of the dataset: the target name is passed straight to the
rendering library for each feature. -/
def scatterplot (data : Option DataFrame) (num_features : Option (List String))
    (target : Option String) (separate_by : Option String)
    (save_fig : Bool) : Outcome :=
  match data with
  | none => ⟨[], some (.valueError dataNoneMsg)⟩
  | some d =>
    match separate_by with
    | some s =>
      if s ∈ d.columns then
        scatterplotTail d num_features target save_fig
      else
        ⟨[], some (.valueError (s ++ " not found in data columns"))⟩
    | none => scatterplotTail d num_features target save_fig

/-- Classification of the guard failures the spec calls invalid-argument
conditions: the module's own `ValueError` and `AttributeError` raises. -/
def isInvalidArgError : Option PyError → Bool
  | some (.valueError _) => true
  | some (.attributeError _) => true
  | _ => false

theorem renderedFeatures_append (a b : List Event) :
    renderedFeatures (a ++ b) = renderedFeatures a ++ renderedFeatures b :=
  List.filterMap_append a b _

theorem warnedFeatures_append (a b : List Event) :
    warnedFeatures (a ++ b) = warnedFeatures a ++ warnedFeatures b :=
  List.filterMap_append a b _

theorem renderedFeatures_saveOpt (b : Bool) (s : String) :
    renderedFeatures (if b then [.saveFig s] else []) = [] := by
  cases b <;> rfl

theorem warnedFeatures_saveOpt (b : Bool) (s : String) :
    warnedFeatures (if b then [.saveFig s] else []) = [] := by
  cases b <;> rfl

theorem renderedFeatures_cons_render (f : String) (evs : List Event) :
    renderedFeatures (.render f :: evs) = f :: renderedFeatures evs := rfl

theorem renderedFeatures_cons_warn (f : String) (evs : List Event) :
    renderedFeatures (.warnTooMany f :: evs) = renderedFeatures evs := rfl

theorem renderedFeatures_cons_display (f : String) (evs : List Event) :
    renderedFeatures (.displayCounts f :: evs) = renderedFeatures evs := rfl

theorem warnedFeatures_cons_render (f : String) (evs : List Event) :
    warnedFeatures (.render f :: evs) = warnedFeatures evs := rfl

theorem warnedFeatures_cons_warn (f : String) (evs : List Event) :
    warnedFeatures (.warnTooMany f :: evs) = f :: warnedFeatures evs := rfl

/-- Characterization of the `countplot` loop on a feature list all of
whose members are columns: it returns normally, renders exactly the
features with at most 30 distinct values, and warns exactly on the
others. -/
theorem countplotLoop_spec (d : DataFrame) (save : Bool) (feats : List String)
    (hcols : ∀ f ∈ feats, (d.getCol? f).isSome) :
    (countplotLoop d save feats).error = none ∧
    renderedFeatures (countplotLoop d save feats).events =
      feats.filter (fun f => decide (d.featNunique f ≤ 30)) ∧
    warnedFeatures (countplotLoop d save feats).events =
      feats.filter (fun f => decide (30 < d.featNunique f)) := by
  induction feats with
  | nil => exact ⟨rfl, rfl, rfl⟩
  | cons f rest ih =>
    have hf : (d.getCol? f).isSome := hcols f (by simp)
    obtain ⟨vs, hvs⟩ := Option.isSome_iff_exists.mp hf
    obtain ⟨he, hr, hw⟩ := ih (fun g hg => hcols g (by simp [hg]))
    have hnum : d.featNunique f = nunique vs := by
      simp [DataFrame.featNunique, hvs]
    simp only [countplotLoop, hvs]
    by_cases h30 : nunique vs > 30
    · simp only [if_pos h30]
      refine ⟨he, ?_, ?_⟩
      · rw [renderedFeatures_cons_warn, hr, List.filter_cons]
        simp [hnum, Nat.not_le.mpr h30]
      · rw [warnedFeatures_cons_warn, hw, List.filter_cons]
        simp [hnum, h30]
    · simp only [if_neg h30]
      refine ⟨he, ?_, ?_⟩
      · rw [List.cons_append, renderedFeatures_cons_render,
          renderedFeatures_append, renderedFeatures_saveOpt, hr,
          List.filter_cons]
        simp [hnum, Nat.not_lt.mp h30]
      · rw [List.cons_append, warnedFeatures_cons_render,
          warnedFeatures_append, warnedFeatures_saveOpt, hw,
          List.filter_cons]
        simp [hnum, Nat.not_lt.mp h30, Nat.not_lt.mpr (Nat.not_lt.mp h30)]

/-- `countplot` with an explicitly resolved feature list coincides with
`countplot` on the unresolved argument. -/
theorem countplot_resolve (d : DataFrame) (fso : Option (List String))
    (sep : Option String) (save : Bool) :
    countplot (some d) (some (fso.getD (get_cat_feats d))) sep save =
      countplot (some d) fso sep save := by
  cases fso <;> rfl

/-- C4: for every call to `countplot` with a non-None dataset whose
effective (given or inferred) feature list names columns of the dataset
without repetition, the call returns normally; every listed feature with
more than 30 distinct values is skipped with a warning and never
rendered, and every listed feature with at most 30 distinct values is
rendered exactly once and never warned about. -/
theorem countplot_skip_and_render (d : DataFrame) (fso : Option (List String))
    (sep : Option String) (save : Bool)
    (hcols : ∀ f ∈ fso.getD (get_cat_feats d), (d.getCol? f).isSome)
    (hnd : (fso.getD (get_cat_feats d)).Nodup) :
    (countplot (some d) fso sep save).error = none ∧
    ∀ f ∈ fso.getD (get_cat_feats d),
      (30 < d.featNunique f →
        f ∈ warnedFeatures (countplot (some d) fso sep save).events ∧
        f ∉ renderedFeatures (countplot (some d) fso sep save).events) ∧
      (d.featNunique f ≤ 30 →
        (renderedFeatures (countplot (some d) fso sep save).events).count f
          = 1 ∧
        f ∉ warnedFeatures (countplot (some d) fso sep save).events) := by
  obtain ⟨he, hr, hw⟩ :=
    countplotLoop_spec d save (fso.getD (get_cat_feats d)) hcols
  have hcp : countplot (some d) fso sep save =
      countplotLoop d save (fso.getD (get_cat_feats d)) := rfl
  rw [hcp]
  refine ⟨he, fun f hf => ⟨fun hgt => ?_, fun hle => ?_⟩⟩
  · rw [hr, hw]
    refine ⟨List.mem_filter.mpr ⟨hf, by simp [hgt]⟩, fun hmem => ?_⟩
    have hc := (List.mem_filter.mp hmem).2
    simp at hc
    omega
  · rw [hr, hw]
    refine ⟨?_, fun hmem => ?_⟩
    · rw [List.count_filter (by simp [hle])]
      exact List.count_eq_one_of_mem hnd hf
    · have hc := (List.mem_filter.mp hmem).2
      simp at hc
      omega

/-- A dataset with one categorical column of 31 distinct values and one
of 2 distinct values. -/
def mixedWidthData : DataFrame :=
  ⟨[⟨"big", false, (List.range 31).map (fun n => toString n)⟩,
    ⟨"small", false, ["x", "y", "x"]⟩]⟩

/-- Witness for `countplot_skip_and_render` at a concrete dataset: the
31-valued feature is warned about and not rendered, the 2-valued feature
is rendered exactly once. -/
theorem countplot_skip_and_render_witness :
    (∀ f ∈ (some ["big", "small"] : Option (List String)).getD
        (get_cat_feats mixedWidthData), (mixedWidthData.getCol? f).isSome) ∧
    ((some ["big", "small"] : Option (List String)).getD
        (get_cat_feats mixedWidthData)).Nodup ∧
    ((countplot (some mixedWidthData) (some ["big", "small"]) none
        false).error = none ∧
      ∀ f ∈ (some ["big", "small"] : Option (List String)).getD
          (get_cat_feats mixedWidthData),
        (30 < mixedWidthData.featNunique f →
          f ∈ warnedFeatures (countplot (some mixedWidthData)
            (some ["big", "small"]) none false).events ∧
          f ∉ renderedFeatures (countplot (some mixedWidthData)
            (some ["big", "small"]) none false).events) ∧
        (mixedWidthData.featNunique f ≤ 30 →
          (renderedFeatures (countplot (some mixedWidthData)
            (some ["big", "small"]) none false).events).count f = 1 ∧
          f ∉ warnedFeatures (countplot (some mixedWidthData)
            (some ["big", "small"]) none false).events)) :=
  ⟨by decide, by decide,
    countplot_skip_and_render mixedWidthData (some ["big", "small"]) none
      false (by decide) (by decide)⟩

/-- C2: for every call to `boxplot` or `violinplot` in which the target
is unset, or the target column exists and has more than 10 distinct
values, the call fails — with the module's `ValueError` for an unset
target, or its `AttributeError` cardinality guard — and no per-feature
rendering occurs: the event trace of the failing call is empty. -/
theorem boxviolin_invalid_target_fails_before_render
    (data : Option DataFrame) (fso : Option (List String))
    (t : Option String) (ld save : Bool)
    (h : t = none ∨ ∃ s d vs, t = some s ∧ data = some d ∧
      d.getCol? s = some vs ∧ 10 < nunique vs) :
    ((boxplot data fso t ld save).events = [] ∧
      ((boxplot data fso t ld save).error =
          some (.valueError "Target value cannot be None") ∨
        (boxplot data fso t ld save).error =
          some (.attributeError "Target categories must be less than 10"))) ∧
    ((violinplot data fso t save).events = [] ∧
      ((violinplot data fso t save).error =
          some (.valueError "Target value cannot be None") ∨
        (violinplot data fso t save).error =
          some (.attributeError "Target categories must be less than 10"))) := by
  rcases h with rfl | ⟨s, d, vs, rfl, rfl, hvs, h10⟩
  · exact ⟨⟨rfl, Or.inl rfl⟩, ⟨rfl, Or.inl rfl⟩⟩
  · simp only [boxplot, violinplot, subscriptCol, hvs]
    simp [if_pos h10]

/-- A dataset whose target column has 11 distinct values. -/
def elevenCatData : DataFrame :=
  ⟨[⟨"t", false, (List.range 11).map (fun n => toString n)⟩,
    ⟨"n", true, ["1", "2", "3"]⟩]⟩

/-- Witness for `boxviolin_invalid_target_fails_before_render` at a
concrete dataset whose target has 11 distinct values. -/
theorem boxviolin_invalid_target_witness :
    ((some "t" : Option String) = none ∨ ∃ s d vs, (some "t" : Option String)
        = some s ∧ (some elevenCatData : Option DataFrame) = some d ∧
        d.getCol? s = some vs ∧ 10 < nunique vs) ∧
    (((boxplot (some elevenCatData) none (some "t") false false).events = [] ∧
      ((boxplot (some elevenCatData) none (some "t") false false).error =
          some (.valueError "Target value cannot be None") ∨
        (boxplot (some elevenCatData) none (some "t") false false).error =
          some (.attributeError "Target categories must be less than 10"))) ∧
    ((violinplot (some elevenCatData) none (some "t") false).events = [] ∧
      ((violinplot (some elevenCatData) none (some "t") false).error =
          some (.valueError "Target value cannot be None") ∨
        (violinplot (some elevenCatData) none (some "t") false).error =
          some (.attributeError "Target categories must be less than 10")))) :=
  ⟨Or.inr ⟨"t", elevenCatData, (List.range 11).map (fun n => toString n),
      rfl, rfl, rfl, by decide⟩,
    boxviolin_invalid_target_fails_before_render (some elevenCatData) none
      (some "t") false false
      (Or.inr ⟨"t", elevenCatData, (List.range 11).map (fun n => toString n),
        rfl, rfl, rfl, by decide⟩)⟩

/-- C10: for every call to `boxplot` or `violinplot` with a non-None
target, a `None` dataset makes the call fail at the target-cardinality
subscript `data[target]` with a `TypeError` and an empty event trace; and
on no input with a non-None target does either function ever surface the
documented missing-data `ValueError` — that guard is unreachable, because
the subscript on line 117 (resp. 189) runs first. -/
theorem boxviolin_dead_data_guard (fso : Option (List String)) (t : String)
    (ld save : Bool) (data : Option DataFrame) :
    boxplot none fso (some t) ld save =
      ⟨[], some (.typeError noneSubscriptMsg)⟩ ∧
    violinplot none fso (some t) save =
      ⟨[], some (.typeError noneSubscriptMsg)⟩ ∧
    (boxplot data fso (some t) ld save).error ≠
      some (.valueError dataNoneMsg) ∧
    (violinplot data fso (some t) save).error ≠
      some (.valueError dataNoneMsg) := by
  refine ⟨rfl, rfl, ?_, ?_⟩ <;>
  · cases data with
    | none => simp [boxplot, violinplot, subscriptCol]
    | some d =>
      cases hvs : d.getCol? t with
      | none => simp [boxplot, violinplot, subscriptCol, hvs]
      | some vs =>
        by_cases h10 : nunique vs > 10 <;>
          simp [boxplot, violinplot, subscriptCol, hvs, h10]

/-- Definitional reduction of `catbox` on a present dataset and target,
exposing the match on the target-column lookup. -/
theorem catbox_some_eq (d : DataFrame) (fso : Option (List String))
    (t : String) (save : Bool) :
    catbox (some d) fso (some t) save =
      (match d.getCol? t with
      | none =>
        ⟨some d, (fso.getD (get_cat_feats d)).erase t,
          ⟨[], some (.keyError t)⟩⟩
      | some tvals =>
        if nunique tvals > 8 then
          ⟨some d, (fso.getD (get_cat_feats d)).erase t,
            ⟨[], some (.attributeError
              "Target categories must be less than seven")⟩⟩
        else
          let dd := d.setCol ⟨"dummy_count", true,
            List.replicate d.nRows "1.0"⟩
          let o := catboxLoop dd t save
            ((fso.getD (get_cat_feats d)).erase t)
          match o.error with
          | some e =>
            ⟨some dd, (fso.getD (get_cat_feats d)).erase t,
              ⟨o.events, some e⟩⟩
          | none =>
            ⟨some (dd.dropCol "dummy_count"),
              (fso.getD (get_cat_feats d)).erase t, o⟩) := rfl

/-- On every path of `catbox` past the missing-data guard, the
caller-visible categorical-feature list is the input list with the first
occurrence of the target erased. -/
theorem catbox_catFeatsAfter_eq_erase (d : DataFrame) (fs : List String)
    (t : String) (save : Bool) :
    (catbox (some d) (some fs) (some t) save).catFeatsAfter = fs.erase t := by
  show (match d.getCol? t with
    | none => ⟨some d, fs.erase t, ⟨[], some (.keyError t)⟩⟩
    | some tvals =>
      if nunique tvals > 8 then
        ⟨some d, fs.erase t,
          ⟨[], some (.attributeError
            "Target categories must be less than seven")⟩⟩
      else
        let dd := d.setCol ⟨"dummy_count", true,
          List.replicate d.nRows "1.0"⟩
        let o := catboxLoop dd t save (fs.erase t)
        match o.error with
        | some e => ⟨some dd, fs.erase t, ⟨o.events, some e⟩⟩
        | none =>
          ⟨some (dd.dropCol "dummy_count"), fs.erase t, o⟩ :
      CatboxResult).catFeatsAfter = fs.erase t
  cases d.getCol? t with
  | none => rfl
  | some tvals =>
    show (if nunique tvals > 8 then _ else _ : CatboxResult).catFeatsAfter
      = fs.erase t
    by_cases h8 : nunique tvals > 8
    · rw [if_pos h8]
    · rw [if_neg h8]
      show (match (catboxLoop (d.setCol ⟨"dummy_count", true,
          List.replicate d.nRows "1.0"⟩) t save (fs.erase t)).error with
        | some e => _
        | none => _ : CatboxResult).catFeatsAfter = fs.erase t
      cases (catboxLoop (d.setCol ⟨"dummy_count", true,
          List.replicate d.nRows "1.0"⟩) t save (fs.erase t)).error <;> rfl

/-- C9: for every call to `catbox` with a non-None dataset and an
explicit `cat_features` list, the caller's list is left equal to the
input list with the first occurrence of the target removed in place; when
the target occurs in the list the list is one element shorter after the
call, and when it does not the removal is silently a no-op. -/
theorem catbox_mutates_callers_list (d : DataFrame) (fs : List String)
    (t : String) (save : Bool) :
    (catbox (some d) (some fs) (some t) save).catFeatsAfter = fs.erase t ∧
    (t ∈ fs →
      (catbox (some d) (some fs) (some t) save).catFeatsAfter.length + 1 =
        fs.length) ∧
    (t ∉ fs →
      (catbox (some d) (some fs) (some t) save).catFeatsAfter = fs) := by
  have h := catbox_catFeatsAfter_eq_erase d fs t save
  refine ⟨h, fun hm => ?_, fun hn => ?_⟩
  · rw [h, List.length_erase_of_mem hm]
    have hpos : 0 < fs.length := List.length_pos.mpr (List.ne_nil_of_mem hm)
    omega
  · rw [h, List.erase_of_not_mem hn]

/-- A small dataset with a 2-category target column and one other
categorical column. -/
def twoColData : DataFrame :=
  ⟨[⟨"t", false, ["p", "q"]⟩, ⟨"a", false, ["u", "v"]⟩]⟩

/-- Witness for `catbox_mutates_callers_list`: with the caller's list
`["a", "t", "b"]` and target `"t"`, the list seen after the call has
length 2. -/
theorem catbox_mutates_callers_list_witness :
    ("t" ∈ ["a", "t", "b"]) ∧
    (catbox (some twoColData) (some ["a", "t", "b"]) (some "t")
        false).catFeatsAfter.length + 1 = 3 :=
  ⟨by decide,
    (catbox_mutates_callers_list twoColData ["a", "t", "b"] "t" false).2.1
      (by decide)⟩

/-- A dataset whose target column `t` has exactly the 7 distinct values
a-g, together with one plottable 2-valued categorical feature. -/
def sevenCatData : DataFrame :=
  ⟨[⟨"t", false, ["a", "b", "c", "d", "e", "f", "g"]⟩,
    ⟨"f1", false, ["x", "y", "x", "y", "x", "y", "x"]⟩]⟩

/-- C1 (failing input): `catbox` on a dataset whose target has 7 distinct
values and whose feature list holds one plottable feature passes the
outer `> 8` guard, adds the transient `dummy_count` column, then raises
the inner `ValueError` of line 318 — and exits with `dummy_count` still
present in the caller's dataset, because the trailing drop of line 339 is
not on the error path.  The caller's column set is changed by the call. -/
theorem catbox_dummy_leak_on_error :
    "dummy_count" ∉ sevenCatData.columns ∧
    (catbox (some sevenCatData) (some ["f1"]) (some "t") false).out.error =
      some (.valueError
        "Target column t must contain less than six unique classes") ∧
    ((catbox (some sevenCatData) (some ["f1"]) (some "t") false).dataAfter.map
      DataFrame.columns) = some ["t", "f1", "dummy_count"] := by
  refine ⟨by decide, by decide, by decide⟩

/-- C3 (failing input): `catbox` on the same 7-category target but with
an (explicit) empty feature list returns normally — the outer guard only
rejects more than 8 categories, and the inner 6-category guard sits
inside the per-feature loop, which never runs — even though the target
has more than 6 distinct categories.  The dataset is also left unchanged
on this path. -/
theorem catbox_seven_categories_no_failure :
    6 < sevenCatData.featNunique "t" ∧
    sevenCatData.featNunique "t" = 7 ∧
    (catbox (some sevenCatData) (some []) (some "t") false).out.error =
      none ∧
    (catbox (some sevenCatData) (some []) (some "t") false).dataAfter =
      some sevenCatData := by
  refine ⟨by decide, by decide, by decide, by decide⟩

/-- A dataset with a single 2-valued categorical column `a`. -/
def oneColData : DataFrame := ⟨[⟨"a", false, ["u", "v"]⟩]⟩

/-- C8 (counterexample): `scatterplot` called with a target that is not a
column of the dataset does not fail — with an explicit empty feature list
the call returns normally with no error at all, because the function
never checks the target against the dataset's columns. -/
theorem scatterplot_missing_target_no_failure :
    "zzz" ∉ oneColData.columns ∧
    scatterplot (some oneColData) (some []) (some "zzz") none false =
      ⟨[], none⟩ := by
  exact ⟨by decide, rfl⟩

/-- C8 (amended): `catbox` with a target that is not a column of the
dataset fails with a `KeyError` at the target-cardinality lookup, with no
events and the caller's dataset untouched (the transient column was not
yet added); `scatterplot` performs no target-existence check — with an
empty feature list it returns normally whatever the target. -/
theorem catbox_missing_target_fails (d : DataFrame)
    (fso : Option (List String)) (t : String) (save : Bool)
    (h : d.getCol? t = none) :
    (catbox (some d) fso (some t) save).out =
      ⟨[], some (.keyError t)⟩ ∧
    (catbox (some d) fso (some t) save).dataAfter = some d ∧
    ∀ (d2 : DataFrame) (t2 : String),
      scatterplot (some d2) (some []) (some t2) none save =
        ⟨[], none⟩ := by
  refine ⟨?_, ?_, fun d2 t2 => rfl⟩ <;>
    simp [catbox_some_eq, h]

/-- Witness for `catbox_missing_target_fails` at a concrete dataset. -/
theorem catbox_missing_target_fails_witness :
    oneColData.getCol? "zz" = none ∧
    (catbox (some oneColData) none (some "zz") false).out =
      ⟨[], some (.keyError "zz")⟩ :=
  ⟨by decide,
    (catbox_missing_target_fails oneColData none "zz" false (by decide)).1⟩

/-- C7 (counterexample): `countplot` with a separator that is not a
column of the dataset does not fail immediately — it performs no
separator-existence check at all: the call renders its feature and
returns without error. -/
theorem countplot_ignores_unknown_separator :
    "zzz" ∉ oneColData.columns ∧
    (countplot (some oneColData) (some ["a"]) (some "zzz") false).error =
      none ∧
    renderedFeatures (countplot (some oneColData) (some ["a"]) (some "zzz")
      false).events = ["a"] := by
  exact ⟨by decide, rfl, rfl⟩

/-- C7 (amended): `scatterplot` with a separator that is not a column of
the dataset fails immediately with the invalid-argument `ValueError` of
line 404 and an empty event trace, before any rendering; `countplot`
performs no such check — its whole outcome is independent of the
separator argument, which is passed straight to the rendering library. -/
theorem scatterplot_separator_guard (d : DataFrame)
    (fso : Option (List String)) (t : Option String) (s : String)
    (save : Bool) (h : s ∉ d.columns) :
    scatterplot (some d) fso t (some s) save =
      ⟨[], some (.valueError (s ++ " not found in data columns"))⟩ ∧
    ∀ sep : Option String,
      countplot (some d) fso sep save = countplot (some d) fso none save := by
  refine ⟨?_, fun sep => rfl⟩
  show (if s ∈ d.columns then scatterplotTail d fso t save
    else ⟨[], some (.valueError (s ++ " not found in data columns"))⟩) = _
  rw [if_neg h]

/-- Witness for `scatterplot_separator_guard` at a concrete dataset. -/
theorem scatterplot_separator_guard_witness :
    ("sep" ∉ oneColData.columns) ∧
    scatterplot (some oneColData) none (some "a") (some "sep") false =
      ⟨[], some (.valueError ("sep" ++ " not found in data columns"))⟩ :=
  ⟨by decide,
    (scatterplot_separator_guard oneColData none (some "a") "sep" false
      (by decide)).1⟩

/-- Characterization of the `histogram` loop on a feature list all of
whose members are columns: it returns normally, renders every feature in
order, and warns about none of them — there is no cardinality skip. -/
theorem histogramLoop_spec (d : DataFrame) (save : Bool)
    (feats : List String)
    (hcols : ∀ f ∈ feats, (d.getCol? f).isSome) :
    (histogramLoop d save feats).error = none ∧
    renderedFeatures (histogramLoop d save feats).events = feats ∧
    warnedFeatures (histogramLoop d save feats).events = [] := by
  induction feats with
  | nil => exact ⟨rfl, rfl, rfl⟩
  | cons f rest ih =>
    have hf : (d.getCol? f).isSome := hcols f (by simp)
    obtain ⟨vs, hvs⟩ := Option.isSome_iff_exists.mp hf
    obtain ⟨he, hr, hw⟩ := ih (fun g hg => hcols g (by simp [hg]))
    simp only [histogramLoop, hvs]
    refine ⟨he, ?_, ?_⟩
    · rw [List.cons_append, renderedFeatures_cons_render,
        renderedFeatures_append, renderedFeatures_saveOpt, hr]
      rfl
    · rw [List.cons_append, warnedFeatures_cons_render,
        warnedFeatures_append, warnedFeatures_saveOpt, hw]
      rfl

/-- A dataset with a single numerical column of 31 distinct values. -/
def wideNumData : DataFrame :=
  ⟨[⟨"x", true, (List.range 31).map (fun n => toString n)⟩]⟩

/-- C5 (counterexample): `histogram` on a feature with 31 distinct values
— above the claimed ceiling of 30 — renders it anyway: no warning is
emitted and no skip occurs, because `histogram` has no cardinality check
at all. -/
theorem histogram_renders_oversized_feature :
    30 < wideNumData.featNunique "x" ∧
    renderedFeatures (histogram (some wideNumData) (some ["x"])
      false).events = ["x"] ∧
    warnedFeatures (histogram (some wideNumData) (some ["x"])
      false).events = [] ∧
    (histogram (some wideNumData) (some ["x"]) false).error = none := by
  exact ⟨by decide, rfl, rfl, rfl⟩

/-- C5 (amended): for every call to `histogram` with a non-None dataset
whose effective (given or inferred) feature list names columns of the
dataset, the call returns normally and renders one chart per listed
feature, in order, with no cardinality-based skipping and no warnings. -/
theorem histogram_renders_all_features (d : DataFrame)
    (fso : Option (List String)) (save : Bool)
    (hcols : ∀ f ∈ fso.getD (get_num_feats d), (d.getCol? f).isSome) :
    (histogram (some d) fso save).error = none ∧
    renderedFeatures (histogram (some d) fso save).events =
      fso.getD (get_num_feats d) ∧
    warnedFeatures (histogram (some d) fso save).events = [] := by
  have hh : histogram (some d) fso save =
      histogramLoop d save (fso.getD (get_num_feats d)) := rfl
  rw [hh]
  exact histogramLoop_spec d save (fso.getD (get_num_feats d)) hcols

/-- Witness for `histogram_renders_all_features` on a concrete dataset
holding one oversized and one small feature. -/
theorem histogram_renders_all_features_witness :
    (∀ f ∈ (none : Option (List String)).getD (get_num_feats wideNumData),
      (wideNumData.getCol? f).isSome) ∧
    renderedFeatures (histogram (some wideNumData) none false).events =
      (none : Option (List String)).getD (get_num_feats wideNumData) :=
  ⟨by decide,
    (histogram_renders_all_features wideNumData none false (by decide)).2.1⟩

/-- The `class_count` display loop on a feature list all of whose members
are columns: it returns normally and renders nothing (it only displays
value-count tables). -/
theorem classCountLoop_spec (d : DataFrame) (feats : List String)
    (hcols : ∀ f ∈ feats, (d.getCol? f).isSome) :
    (classCountLoop d feats).error = none ∧
    renderedFeatures (classCountLoop d feats).events = [] := by
  induction feats with
  | nil => exact ⟨rfl, rfl⟩
  | cons f rest ih =>
    have hf : (d.getCol? f).isSome := hcols f (by simp)
    obtain ⟨vs, hvs⟩ := Option.isSome_iff_exists.mp hf
    obtain ⟨he, hr⟩ := ih (fun g hg => hcols g (by simp [hg]))
    simp only [classCountLoop, hvs]
    exact ⟨he, by rw [renderedFeatures_cons_display, hr]⟩

/-- C6: for every non-None dataset and optional feature list whose
effective (given or inferred) features are all columns of the dataset,
`class_count` with `plot=True` renders exactly the same feature sequence
as calling `countplot` directly with that dataset and feature list: the
delegation passes the identically resolved list through the identical
skip rules. -/
theorem class_count_plot_matches_countplot (d : DataFrame)
    (fso : Option (List String)) (save : Bool)
    (hcols : ∀ f ∈ fso.getD (get_cat_feats d), (d.getCol? f).isSome) :
    renderedFeatures (class_count (some d) fso true save).events =
      renderedFeatures (countplot (some d) fso none save).events := by
  obtain ⟨he, hr⟩ := classCountLoop_spec d (fso.getD (get_cat_feats d)) hcols
  have hcc : class_count (some d) fso true save =
      (match (classCountLoop d (fso.getD (get_cat_feats d))).error with
      | some e =>
        ⟨(classCountLoop d (fso.getD (get_cat_feats d))).events, some e⟩
      | none =>
        ⟨(classCountLoop d (fso.getD (get_cat_feats d))).events ++
            (countplot (some d) (some (fso.getD (get_cat_feats d))) none
              save).events,
          (countplot (some d) (some (fso.getD (get_cat_feats d))) none
            save).error⟩) := rfl
  rw [hcc, he, renderedFeatures_append, hr, List.nil_append,
    countplot_resolve]

/-- Witness for `class_count_plot_matches_countplot` on a concrete
dataset with an inferred feature list. -/
theorem class_count_plot_matches_countplot_witness :
    (∀ f ∈ (none : Option (List String)).getD (get_cat_feats mixedWidthData),
      (mixedWidthData.getCol? f).isSome) ∧
    renderedFeatures (class_count (some mixedWidthData) none true
        false).events =
      renderedFeatures (countplot (some mixedWidthData) none none
        false).events :=
  ⟨by decide,
    class_count_plot_matches_countplot mixedWidthData none false (by decide)⟩

/-- Instantiation of `boxviolin_dead_data_guard` at concrete arguments:
with a `None` dataset and target `"t"`, `boxplot` raises the `TypeError`
of the subscript, not the documented missing-data `ValueError`. -/
theorem boxviolin_dead_data_guard_witness :
    boxplot none none (some "t") false false =
      ⟨[], some (.typeError noneSubscriptMsg)⟩ ∧
    (boxplot none none (some "t") false false).error ≠
      some (.valueError dataNoneMsg) :=
  ⟨(boxviolin_dead_data_guard none "t" false false none).1,
    (boxviolin_dead_data_guard none "t" false false none).2.2.1⟩

end Datasist
